import Mathlib

/-!
Verification of the document e-signature workflow backend
(`Document_Sign_backend`).

This file gives a shallow embedding, in Lean 4, of the parts of the
code that the specification's claims are about:

* the signing token service (`src/services/tokenService.js`): an
  in-memory `Map` from token strings to token data, with `storeToken`,
  `verifyToken`, `invalidateToken`, `getToken`, `cleanupExpiredTokens`;
* the document model (`src/models/Document.js`): status enum, signers
  with `signed` flags and hashed `signatureToken`, file hash metadata,
  and the `generateSigningToken` method;
* the signature store (`src/models/Signature.js`): records with a
  unique index on `(documentId, signerEmail)`;
* the audit log (`src/models/AuditLog.js`): schema validation with a
  required `userId` and an `action` enum, and the `log` static that
  swallows validation failures;
* the document and signature controllers (`uploadDocument`,
  `sendDocument`, `rejectDocument`, `updateDocument`, `deleteDocument`,
  `addSignature`, `signWithToken`, `verifySignature`).

Conventions of the embedding:

* JavaScript `Date.now()` timestamps are a `now : Nat` parameter.
* `crypto.randomBytes` outputs (fresh tokens) are explicit parameters.
* `crypto.createHash('sha256')` is an abstract function parameter
  (`hashStr : String → String` for strings, `byteHash : List Nat →
  List Nat` for file contents); file contents are byte lists.
* Mongoose persistence: an operation's returned state is the state the
  database holds after the operation, including states committed by a
  `document.save()` that happened before a later exception.  Document
  lookup by id (`findById`) is modelled by comparing against the id
  of the document under consideration.
* `catchAsync`/`AppError`: fallible operations return
  `Except AppError _` together with the persisted state.
* The PDF assembly collaborator (`pdfService.generateSignedPDF`) is
  external to the workflow core; its success or failure is a
  `pdfOk : Bool` parameter to the operations that call it.
-/

namespace DocSign

/-- Document status enum (`Document.js`, `status.enum`). -/
inductive Status where
  | draft
  | sent
  | signed
  | rejected
deriving Repr, DecidableEq

/-- A signer sub-document (`Document.js`, `signers` array entry).
`signatureToken` holds the *hashed* token set by
`generateSigningToken`. -/
structure Signer where
  name : String
  email : String
  signed : Bool
  signatureToken : Option String
deriving Repr, DecidableEq

/-- The signed-file reference recorded at completion. -/
structure SignedFile where
  filename : String
deriving Repr, DecidableEq

/-- A document record (`Document.js`).  `fileHash` is
`metadata.fileHash`, computed at upload from the original file. -/
structure Doc where
  id : Nat
  title : String
  status : Status
  signers : List Signer
  signatures : List Nat
  fileHash : List Nat
  signedFile : Option SignedFile
  rejectionReason : Option String
deriving Repr, DecidableEq

/-- An application error (`AppError.js`): message and HTTP status. -/
structure AppError where
  message : String
  statusCode : Nat
deriving Repr, DecidableEq

/-- A Mongoose ObjectId as a JavaScript object: `value` is the id the
database compares (`findById` casts its argument to this value), and
`ref` is the object's allocation identity — every in-memory instance
produced by a document creation or a fresh query has its own `ref`.
JavaScript `===` between two ObjectId objects is reference equality:
true only for the very same instance, false for distinct instances
even when `value` coincides. -/
structure ObjectId where
  value : Nat
  ref : Nat
deriving Repr, DecidableEq

/-- Data stored for a signing token (`tokenService.js`,
`storeToken`).  `documentId` is the ObjectId *object* the caller
passed (`document._id` of the uploading request), stored by
reference. -/
structure TokenData where
  documentId : ObjectId
  email : String
  expiresAt : Nat
  used : Bool
deriving Repr, DecidableEq

/-- The token service's in-memory store: a JavaScript `Map` in
insertion order, keyed by the token string. -/
abbrev TokStore := List (String × TokenData)

/-- `Map.prototype.get`. -/
def mapGet (k : String) (m : TokStore) : Option TokenData :=
  (m.find? (fun p => p.fst == k)).map Prod.snd

/-- `Map.prototype.set`: replace in place if the key is present,
append otherwise (JS maps keep insertion order). -/
def mapSet (k : String) (v : TokenData) (m : TokStore) : TokStore :=
  if m.any (fun p => p.fst == k) then
    m.map (fun p => if p.fst == k then (k, v) else p)
  else
    m ++ [(k, v)]

/-- `Map.prototype.delete`. -/
def mapDelete (k : String) (m : TokStore) : TokStore :=
  m.filter (fun p => ¬ p.fst == k)

/-- `tokenService.storeToken(token, data, expiryInSeconds)`: records
`data` plus `expiresAt` and `used = false` under the plaintext token
key, and returns the token. -/
def storeToken (token : String) (documentId : ObjectId) (email : String)
    (now : Nat) (expiryInSeconds : Nat) (store : TokStore) :
    String × TokStore :=
  (token, mapSet token ⟨documentId, email, now + expiryInSeconds * 1000, false⟩ store)

/-- `tokenService.verifyToken(token)`: returns the associated
`(documentId, email)` if the token is present, unexpired and unused;
returns `none` otherwise, deleting the entry when it is expired.  The
second component is the store after the call. -/
def verifyToken (token : String) (now : Nat) (store : TokStore) :
    Option (ObjectId × String) × TokStore :=
  match mapGet token store with
  | none => (none, store)
  | some tokenData =>
    if tokenData.expiresAt < now then
      (none, mapDelete token store)
    else if tokenData.used then
      (none, store)
    else
      (some (tokenData.documentId, tokenData.email), store)

/-- `tokenService.invalidateToken(token)`: marks the stored record
`used = true` when present; no-op otherwise. -/
def invalidateToken (token : String) (store : TokStore) : TokStore :=
  match mapGet token store with
  | none => store
  | some tokenData => mapSet token ⟨tokenData.documentId, tokenData.email,
      tokenData.expiresAt, true⟩ store

/-- `tokenService.getToken(documentId, email)`: first entry of the
store whose data satisfies `data.documentId === documentId &&
data.email === email && !data.used`.  The stored `documentId` is the
ObjectId instance captured at upload time, and `===` between ObjectId
objects is reference equality — modelled as equality of `ref` — so a
lookup with a distinct instance of the same id value matches
nothing. -/
def getToken (documentId : ObjectId) (email : String) (store : TokStore) :
    Option String :=
  (store.find? (fun p =>
    p.snd.documentId.ref == documentId.ref && p.snd.email == email && !p.snd.used)).map Prod.fst

/-- `tokenService.cleanupExpiredTokens()`: drops entries past expiry. -/
def cleanupExpiredTokens (now : Nat) (store : TokStore) : TokStore :=
  store.filter (fun p => ¬ p.snd.expiresAt < now)

/-- `tokenService.generateSigningUrl(token, baseUrl)`; also the URL
composed inline in `sendDocument`.  A missing token interpolates as
the JavaScript string rendering of `null`. -/
def signingUrl (baseUrl : String) (token : Option String) : String :=
  baseUrl ++ "/api/sign/" ++ (match token with
    | some t => t
    | none => "null")

/-! ### Audit log (`src/models/AuditLog.js`) -/

/-- The payload handed to `AuditLog.log` (the fields the audit schema
validates; origin metadata and the free-form metadata map carry no
constraints and are elided). -/
structure AuditInput where
  userId : Option Nat
  documentId : Nat
  action : String
deriving Repr, DecidableEq

/-- The `action` enum of the audit log schema. -/
def auditActions : List String :=
  ["document_created", "document_updated", "document_viewed",
   "document_sent", "document_signed", "document_rejected",
   "signature_added", "signature_removed", "email_sent",
   "token_generated", "token_verified"]

/-- Mongoose validation of an audit entry: `userId` and `documentId`
are `required: true` (so `null` is rejected) and `action` must belong
to the schema's enum. -/
def auditEntryValid (e : AuditInput) : Bool :=
  e.userId.isSome && auditActions.contains e.action

/-- `AuditLog.log(data)`: `this.create(data)` inside a `try` that
swallows any error, so a validation failure stores nothing and does
not propagate. -/
def auditLogWrite (e : AuditInput) (logs : List AuditInput) : List AuditInput :=
  if auditEntryValid e then logs ++ [e] else logs

/-! ### Signature store (`src/models/Signature.js`) -/

/-- A signature record (the fields involved in the claims). -/
structure SigRec where
  documentId : Nat
  signerEmail : String
  signerName : String
deriving Repr, DecidableEq

/-- Whether the store already holds a record for
`(documentId, signerEmail)`. -/
def sigPairPresent (documentId : Nat) (signerEmail : String)
    (sigs : List SigRec) : Bool :=
  sigs.any (fun s => s.documentId == documentId && s.signerEmail == signerEmail)

/-- `Signature.create(...)` under the schema's unique index
`{ documentId: 1, signerEmail: 1 }, { unique: true }`
(`Signature.js`, line 133): inserting a second record for the same
pair fails with a duplicate-key error. -/
def signatureCreate (r : SigRec) (sigs : List SigRec) :
    Except AppError (List SigRec) :=
  if sigPairPresent r.documentId r.signerEmail sigs then
    Except.error ⟨"E11000 duplicate key error", 500⟩
  else
    Except.ok (sigs ++ [r])

/-! ### Document methods (`src/models/Document.js`) -/

/-- Look up a signer by email (`document.signers.find(s => s.email === email)`). -/
def findSigner (email : String) (signers : List Signer) : Option Signer :=
  signers.find? (fun s => s.email == email)

/-- Mark the signer with the given email as signed (the in-place
mutation `signer.signed = true`). -/
def markSigner (email : String) (signers : List Signer) : List Signer :=
  signers.map (fun s => if s.email == email then ⟨s.name, s.email, true, s.signatureToken⟩ else s)

/-- `document.signers.every(s => s.signed)`. -/
def allSigned (signers : List Signer) : Bool :=
  signers.all (fun s => s.signed)

/-- `document.generateSigningToken(signerEmail)`: hashes a fresh
random token (`freshToken`, the `crypto.randomBytes` output) and
stores only the hashed form on the signer; the plaintext is returned.
`hashStr` stands for sha256-hex. -/
def generateSigningToken (hashStr : String → String) (freshToken : String)
    (signerEmail : String) (doc : Doc) : String × Doc :=
  (freshToken,
   ⟨doc.id, doc.title, doc.status,
    doc.signers.map (fun s =>
      if s.email == signerEmail then ⟨s.name, s.email, s.signed, some (hashStr freshToken)⟩ else s),
    doc.signatures, doc.fileHash, doc.signedFile, doc.rejectionReason⟩)

/-! ### Document controller (`src/controllers/documentController.js`) -/

/-- Outcome of `uploadDocument`. -/
structure UploadOutcome where
  doc : Doc
  store : TokStore
  audit : List AuditInput
deriving Repr, DecidableEq

/-- One iteration of `uploadDocument`'s token loop: generate the
signing token for the signer (hashed form onto the document) and store
the plaintext token with the token service. -/
def uploadTokenStep (hashStr : String → String) (docOid : ObjectId) (now : Nat)
    (st : Doc × TokStore) (pr : Signer × String) : Doc × TokStore :=
  let gen := generateSigningToken hashStr pr.snd pr.fst.email st.fst
  (gen.snd, (storeToken gen.fst docOid pr.fst.email now (7 * 24 * 60 * 60) st.snd).snd)

/-- `uploadDocument`: creates the document in `draft` with
`metadata.fileHash` set to the hash of the uploaded bytes, then — for
each signer — generates a signing token (hashed form onto the signer,
per `generateSigningToken`) and stores the plaintext token in the
token service, then saves and audit-logs.  `freshTokens` supplies the
`crypto.randomBytes` value consumed by each loop iteration.  `docOid`
is the ObjectId instance allocated for the created document in this
request (`document._id`); its `value` is the persisted id and the
token store receives this very instance. -/
def uploadDocument (hashStr : String → String) (byteHash : List Nat → List Nat)
    (docOid : ObjectId) (userId : Nat) (title : String)
    (signers : List (String × String)) (fileBytes : List Nat)
    (freshTokens : List String) (now : Nat)
    (store : TokStore) (audit : List AuditInput) : UploadOutcome :=
  let fileHash := byteHash fileBytes
  let doc0 : Doc := ⟨docOid.value, title, Status.draft,
    signers.map (fun p => ⟨p.fst, p.snd, false, none⟩),
    [], fileHash, none, none⟩
  let loop := (doc0.signers.zip freshTokens).foldl (uploadTokenStep hashStr docOid now) (doc0, store)
  ⟨loop.fst, loop.snd,
   auditLogWrite ⟨some userId, docOid.value, "document_created"⟩ audit⟩

/-- A signing-request email dispatched by `sendDocument` (`recipient`
embeds the `to` field of `emailService.sendSigningRequest`). -/
structure EmailMsg where
  recipient : String
  url : String
deriving Repr, DecidableEq

/-- Equality of `Except` results is decidable componentwise (needed so
witnesses can evaluate concrete runs with `decide`). -/
instance {e a : Type} [DecidableEq e] [DecidableEq a] : DecidableEq (Except e a) := fun x y =>
  match x, y with
  | Except.ok u, Except.ok v =>
    if h : u = v then isTrue (congrArg Except.ok h)
    else isFalse (fun c => h (by injection c))
  | Except.error u, Except.error v =>
    if h : u = v then isTrue (congrArg Except.error h)
    else isFalse (fun c => h (by injection c))
  | Except.ok _, Except.error _ => isFalse (fun c => Except.noConfusion c)
  | Except.error _, Except.ok _ => isFalse (fun c => Except.noConfusion c)

/-- Outcome of `sendDocument`. -/
structure SendOutcome where
  result : Except AppError Unit
  doc : Doc
  store : TokStore
  emails : List EmailMsg
  audit : List AuditInput
deriving Repr, DecidableEq

/-- `sendDocument`: requires `draft` status and at least one signer;
sets status to `sent`, then emails each signer a link built from
`tokenService.getToken(document._id, signer.email)`; the token store
itself is only read.  `docOid` is this request's `document._id`
instance: the document comes from `checkDocumentOwnership`, which ran
`findById` in this request, so `docOid` is a fresh ObjectId object
(its `ref` differs from the upload request's instance even though
`docOid.value = doc.id`). -/
def sendDocument (baseUrl : String) (userId : Nat) (docOid : ObjectId) (doc : Doc)
    (store : TokStore) (audit : List AuditInput) : SendOutcome :=
  if doc.status ≠ Status.draft then
    ⟨Except.error ⟨"Document has already been sent or signed.", 400⟩, doc, store, [], audit⟩
  else if doc.signers.isEmpty then
    ⟨Except.error ⟨"Please add at least one signer before sending.", 400⟩, doc, store, [], audit⟩
  else
    let doc1 : Doc := { doc with status := Status.sent }
    let emails := doc.signers.map (fun s =>
      ⟨s.email, signingUrl baseUrl (getToken docOid s.email store)⟩)
    ⟨Except.ok (), doc1, store, emails,
     auditLogWrite ⟨some userId, doc.id, "document_sent"⟩ audit⟩

/-- `rejectDocument`: requires `sent` status; records the rejection
reason and moves to `rejected`. -/
def rejectDocument (reason : String) (userId : Nat) (doc : Doc)
    (audit : List AuditInput) : Except AppError Unit × Doc × List AuditInput :=
  if doc.status ≠ Status.sent then
    (Except.error ⟨"Document must be in sent status to reject.", 400⟩, doc, audit)
  else
    (Except.ok (),
     { doc with status := Status.rejected, rejectionReason := some reason },
     auditLogWrite ⟨some userId, doc.id, "document_rejected"⟩ audit)

/-- `updateDocument`: only permitted while the document is in `draft`;
updates title and signers when provided.  (The audit action
`document_updated` is in the schema enum.) -/
def updateDocument (title? : Option String) (signers? : Option (List Signer))
    (userId : Nat) (doc : Doc) (audit : List AuditInput) :
    Except AppError Unit × Doc × List AuditInput :=
  if doc.status ≠ Status.draft then
    (Except.error ⟨"Cannot update document after it has been sent.", 400⟩, doc, audit)
  else
    (Except.ok (),
     { doc with title := title?.getD doc.title, signers := signers?.getD doc.signers },
     auditLogWrite ⟨some userId, doc.id, "document_updated"⟩ audit)

/-- `deleteDocument`: only draft documents may be deleted; a deleted
document is `none`. -/
def deleteDocument (doc : Doc) : Except AppError Unit × Option Doc :=
  if doc.status ≠ Status.draft then
    (Except.error ⟨"Cannot delete document after it has been sent.", 400⟩, some doc)
  else
    (Except.ok (), none)

/-! ### Signature controller (`src/controllers/signatureController.js`) -/

/-- Outcome of `addSignature` (authenticated path). -/
structure SignOutcome where
  result : Except AppError Unit
  doc : Doc
  sigs : List SigRec
  audit : List AuditInput
deriving Repr, DecidableEq

/-- `addSignature`: the authenticated signature-submission path.
Guards in source order: document status must be `sent`; the signer
must be listed; the signer must not have signed already; a position
and signature data must be present.  Then the Signature record is
created (unique index), the signer is marked signed and the document
saved; if every signer has now signed, the signed PDF is assembled
(`pdfOk` models `pdfService.generateSignedPDF` succeeding), the
signed-file reference recorded and the status set to `signed`.  A PDF
assembly failure propagates after the save that marked the signer, so
the persisted document keeps status `sent`.  The audit write at the
end is only reached on success. -/
def addSignature (documentId : Nat) (signerEmail signerName : String)
    (hasPosition hasSignatureData pdfOk : Bool) (reqUser : Option Nat)
    (doc : Doc) (sigs : List SigRec) (audit : List AuditInput) : SignOutcome :=
  if doc.id ≠ documentId then
    ⟨Except.error ⟨"Document not found.", 404⟩, doc, sigs, audit⟩
  else if doc.status ≠ Status.sent then
    ⟨Except.error ⟨"Document is not ready for signing.", 400⟩, doc, sigs, audit⟩
  else match findSigner signerEmail doc.signers with
  | none => ⟨Except.error ⟨"You are not authorized to sign this document.", 403⟩, doc, sigs, audit⟩
  | some signer =>
    if signer.signed then
      ⟨Except.error ⟨"You have already signed this document.", 400⟩, doc, sigs, audit⟩
    else if hasPosition = false then
      ⟨Except.error ⟨"Signature position is required.", 400⟩, doc, sigs, audit⟩
    else if hasSignatureData = false then
      ⟨Except.error ⟨"Signature data is required.", 400⟩, doc, sigs, audit⟩
    else match signatureCreate ⟨doc.id, signerEmail, signerName⟩ sigs with
    | Except.error e => ⟨Except.error e, doc, sigs, audit⟩
    | Except.ok sigs1 =>
      let doc1 : Doc := { doc with
        signatures := doc.signatures ++ [sigs.length],
        signers := markSigner signerEmail doc.signers }
      if allSigned doc1.signers then
        if pdfOk then
          let doc2 : Doc := { doc1 with
            signedFile := some ⟨"signed.pdf"⟩, status := Status.signed }
          ⟨Except.ok (), doc2, sigs1,
           auditLogWrite ⟨reqUser, doc.id, "signature_added"⟩ audit⟩
        else
          ⟨Except.error ⟨"Error generating signed PDF", 500⟩, doc1, sigs1, audit⟩
      else
        ⟨Except.ok (), doc1, sigs1,
         auditLogWrite ⟨reqUser, doc.id, "signature_added"⟩ audit⟩

/-- Outcome of `signWithToken` (public token path). -/
structure TokenSignOutcome where
  result : Except AppError Unit
  doc : Doc
  sigs : List SigRec
  store : TokStore
  audit : List AuditInput
deriving Repr, DecidableEq

/-- `signWithToken`: the public token-based submission path.  The
token is verified first (`tokenService.verifyToken`); then the same
guards as `addSignature` run (`Document.findById(documentId)` queries
by the ObjectId's value); the Signature record is created, the
signer marked signed, **the token invalidated**, and the document
saved — all before the all-signed check and any PDF assembly.  The
final audit write passes `userId: null`. -/
def signWithToken (token : String) (name : Option String)
    (hasSignatureData pdfOk : Bool) (now : Nat) (doc : Doc)
    (sigs : List SigRec) (store : TokStore) (audit : List AuditInput) :
    TokenSignOutcome :=
  match verifyToken token now store with
  | (none, store1) =>
    ⟨Except.error ⟨"Invalid or expired token.", 400⟩, doc, sigs, store1, audit⟩
  | (some (documentId, email), store1) =>
    if doc.id ≠ documentId.value then
      ⟨Except.error ⟨"Document not found.", 404⟩, doc, sigs, store1, audit⟩
    else if doc.status ≠ Status.sent then
      ⟨Except.error ⟨"Document is not ready for signing.", 400⟩, doc, sigs, store1, audit⟩
    else match findSigner email doc.signers with
    | none =>
      ⟨Except.error ⟨"You are not authorized to sign this document.", 403⟩, doc, sigs, store1, audit⟩
    | some signer =>
      if signer.signed then
        ⟨Except.error ⟨"You have already signed this document.", 400⟩, doc, sigs, store1, audit⟩
      else if hasSignatureData = false then
        ⟨Except.error ⟨"Signature data is required.", 400⟩, doc, sigs, store1, audit⟩
      else match signatureCreate ⟨doc.id, email, name.getD signer.name⟩ sigs with
      | Except.error e => ⟨Except.error e, doc, sigs, store1, audit⟩
      | Except.ok sigs1 =>
        let doc1 : Doc := { doc with
          signatures := doc.signatures ++ [sigs.length],
          signers := markSigner email doc.signers }
        let store2 := invalidateToken token store1
        if allSigned doc1.signers then
          if pdfOk then
            let doc2 : Doc := { doc1 with
              signedFile := some ⟨"signed.pdf"⟩, status := Status.signed }
            ⟨Except.ok (), doc2, sigs1, store2,
             auditLogWrite ⟨none, doc.id, "signature_added"⟩ audit⟩
          else
            ⟨Except.error ⟨"Error generating signed PDF", 500⟩, doc1, sigs1, store2, audit⟩
        else
          ⟨Except.ok (), doc1, sigs1, store2,
           auditLogWrite ⟨none, doc.id, "signature_added"⟩ audit⟩

/-- `verifySignature`'s integrity check: `documentIntact` is `true`
by default and, when a signed file is stored, is the comparison of the
signed file's recomputed hash against `metadata.fileHash` (the hash of
the *original* upload recorded by `uploadDocument`). -/
def documentIntact (byteHash : List Nat → List Nat)
    (signedFileBytes : Option (List Nat)) (storedFileHash : List Nat) : Bool :=
  match signedFileBytes with
  | none => true
  | some b => byteHash b == storedFileHash

/-- The status transition relation of the specification's state
machine: stay put, `draft → sent`, or `sent → signed/rejected`. -/
def statusStep (a b : Status) : Prop :=
  a = b ∨ (a = Status.draft ∧ b = Status.sent) ∨
    (a = Status.sent ∧ (b = Status.signed ∨ b = Status.rejected))

instance (a b : Status) : Decidable (statusStep a b) := by
  unfold statusStep; infer_instance

/-! ### Helper lemmas on the token store -/

theorem mapGet_mapSet_self (k : String) (v : TokenData) (m : TokStore) :
    mapGet k (mapSet k v m) = some v := by
  unfold mapSet
  by_cases h : m.any (fun p => p.fst == k)
  · simp only [h, if_true]
    induction m with
    | nil => simp at h
    | cons p m ih =>
      by_cases hp : p.fst == k
      · simp [mapGet, List.find?, hp]
      · simp only [List.any_cons, hp, Bool.false_or] at h
        simp only [List.map_cons, if_neg hp]
        simpa [mapGet, List.find?, hp] using ih h
  · simp only [h, if_false]
    induction m with
    | nil => simp [mapGet, List.find?]
    | cons p m ih =>
      simp only [List.any_cons, Bool.or_eq_true, not_or] at h
      simp only [List.cons_append]
      simpa [mapGet, List.find?, h.1] using ih (by simpa using h.2)

theorem mapGet_mapDelete_self (k : String) (m : TokStore) :
    mapGet k (mapDelete k m) = none := by
  unfold mapGet mapDelete
  induction m with
  | nil => simp
  | cons p m ih =>
    by_cases hp : p.fst == k
    · simp [List.filter, hp, ih]
    · simp [List.filter, hp, List.find?, ih]

/-- After `invalidateToken`, the token never verifies again, at any
time: the entry is either absent, expired (and rejected), or marked
used (and rejected). -/
theorem verifyToken_after_invalidate (token : String) (now : Nat) (store : TokStore) :
    (verifyToken token now (invalidateToken token store)).fst = none := by
  unfold invalidateToken
  rcases h : mapGet token store with _ | td
  · unfold verifyToken
    rw [h]
  · unfold verifyToken
    rw [mapGet_mapSet_self]
    by_cases hexp : td.expiresAt < now
    · simp [hexp]
    · simp [hexp]

/-- The token loop of `uploadDocument` touches only the signers and the
token store: id, status and file hash of the document are preserved. -/
theorem uploadTokenStep_foldl_preserves (hashStr : String → String)
    (docOid : ObjectId) (now : Nat)
    (l : List (Signer × String)) (st : Doc × TokStore) :
    (l.foldl (uploadTokenStep hashStr docOid now) st).fst.id = st.fst.id ∧
    (l.foldl (uploadTokenStep hashStr docOid now) st).fst.status = st.fst.status ∧
    (l.foldl (uploadTokenStep hashStr docOid now) st).fst.fileHash = st.fst.fileHash := by
  induction l generalizing st with
  | nil => exact ⟨rfl, rfl, rfl⟩
  | cons p l ih =>
    simpa [uploadTokenStep, generateSigningToken] using
      ih (uploadTokenStep hashStr docOid now st p)

/-- Case analysis of `addSignature`: either the document is untouched
(an error before any mutation) or the precondition `status = sent`
held and the operation left the status at `sent` or moved it to
`signed`. -/
theorem addSignature_doc_cases (documentId : Nat) (se sn : String)
    (hp hd pdfOk : Bool) (u : Option Nat) (doc : Doc) (sigs : List SigRec)
    (audit : List AuditInput) :
    (addSignature documentId se sn hp hd pdfOk u doc sigs audit).doc = doc ∨
    (doc.status = Status.sent ∧
      ((addSignature documentId se sn hp hd pdfOk u doc sigs audit).doc.status = Status.sent ∨
       (addSignature documentId se sn hp hd pdfOk u doc sigs audit).doc.status = Status.signed)) := by
  unfold addSignature
  repeat' split
  all_goals try simp_all
  all_goals split
  all_goals simp_all

/-- Case analysis of `signWithToken`, as for `addSignature`. -/
theorem signWithToken_doc_cases (token : String) (name : Option String)
    (hd pdfOk : Bool) (now : Nat) (doc : Doc) (sigs : List SigRec)
    (store : TokStore) (audit : List AuditInput) :
    (signWithToken token name hd pdfOk now doc sigs store audit).doc = doc ∨
    (doc.status = Status.sent ∧
      ((signWithToken token name hd pdfOk now doc sigs store audit).doc.status = Status.sent ∨
       (signWithToken token name hd pdfOk now doc sigs store audit).doc.status = Status.signed)) := by
  unfold signWithToken
  repeat' split
  all_goals try simp_all
  all_goals split
  all_goals simp_all

/-- `statusStep` from the shape delivered by the case lemmas. -/
theorem statusStep_of_doc_cases {doc d2 : Doc}
    (h : d2 = doc ∨ (doc.status = Status.sent ∧
      (d2.status = Status.sent ∨ d2.status = Status.signed))) :
    statusStep doc.status d2.status := by
  rcases h with h | ⟨ha, hb | hb⟩
  · exact Or.inl (congrArg Doc.status h).symm
  · exact Or.inl (ha.trans hb.symm)
  · exact Or.inr (Or.inr ⟨ha, Or.inl hb⟩)

/-! ### Claims -/

/-- C4 (code bug): `uploadDocument` records `metadata.fileHash` as the
hash of the *original* uploaded bytes, while `verifySignature`
compares it against the re-hash of the *signed* file; consequently an
unaltered stored signed file whose bytes hash differently from the
original upload — the normal outcome of PDF assembly, which draws
signatures onto the pages — reports `documentIntact = false`, contrary
to the claim that an unaltered signed file reports `true`. -/
theorem C4_integrity_check_compares_against_original_hash
    (hashStr : String → String) (byteHash : List Nat → List Nat)
    (docOid : ObjectId) (userId : Nat) (title : String) (signers : List (String × String))
    (fileBytes : List Nat) (freshTokens : List String) (now : Nat)
    (store : TokStore) (audit : List AuditInput) (signedBytes : List Nat)
    (hne : byteHash signedBytes ≠ byteHash fileBytes) :
    (uploadDocument hashStr byteHash docOid userId title signers fileBytes
        freshTokens now store audit).doc.fileHash = byteHash fileBytes ∧
    documentIntact byteHash (some signedBytes) (byteHash fileBytes) = false := by
  constructor
  · exact (uploadTokenStep_foldl_preserves hashStr docOid now _ _).2.2
  · simpa [documentIntact] using hne

/-- Witness for C4: with the identity standing in for the hash and a
signed artifact `[0, 1]` differing from the original upload `[0]`, the
upload stores the original's hash, and the intact stored signed file
reports `documentIntact = false`. -/
theorem C4_integrity_check_compares_against_original_hash_witness :
    (uploadDocument (fun s => s) (fun l => l) ⟨1, 1⟩ 7 "t" [("A", "a@b.c")] [0]
        ["tokC4"] 0 [] []).doc.fileHash = [0] ∧
    documentIntact (fun l => l) (some [0, 1]) [0] = false :=
  C4_integrity_check_compares_against_original_hash (fun s => s) (fun l => l)
    ⟨1, 1⟩ 7 "t" [("A", "a@b.c")] [0] ["tokC4"] 0 [] [] [0, 1] (by decide)

/-- C5 (counterexample): a concrete `uploadDocument` run stores the
issued token's *plaintext* value as a key of the token service's
persisted store — refuting that the plaintext token is never stored in
any store. -/
theorem C5_counterexample :
    mapGet "tokC5" (uploadDocument (fun s => String.append "h" s) (fun l => l)
        ⟨1, 1⟩ 7 "t" [("A", "a@b.c")] [0] ["tokC5"] 0 [] []).store
      = some ⟨⟨1, 1⟩, "a@b.c", 604800000, false⟩ := by
  decide

/-- C5 (amended): the Document record keeps only the hashed form of a
signer's token (`signer.signatureToken = hash(token)`), and the
plaintext token is returned to the caller; but the token service's
store is keyed by the plaintext token itself, so the plaintext *is*
persisted there, mapped to `(documentId, email, expiry, used=false)`. -/
theorem C5_document_hashed_but_token_store_plaintext
    (hashStr : String → String) (byteHash : List Nat → List Nat)
    (docOid : ObjectId) (userId : Nat) (title n e : String) (fileBytes : List Nat)
    (tok : String) (now : Nat) (store : TokStore) (audit : List AuditInput) :
    (storeToken tok docOid e now (7 * 24 * 60 * 60) store).fst = tok ∧
    (generateSigningToken hashStr tok e ⟨docOid.value, title, Status.draft,
        [⟨n, e, false, none⟩], [], byteHash fileBytes, none, none⟩).fst = tok ∧
    (uploadDocument hashStr byteHash docOid userId title [(n, e)] fileBytes
        [tok] now store audit).doc.signers = [⟨n, e, false, some (hashStr tok)⟩] ∧
    (uploadDocument hashStr byteHash docOid userId title [(n, e)] fileBytes
        [tok] now store audit).store
      = mapSet tok ⟨docOid, e, now + 604800000, false⟩ store := by
  refine ⟨rfl, rfl, ?_, ?_⟩
  · simp [uploadDocument, uploadTokenStep, generateSigningToken]
  · simp [uploadDocument, uploadTokenStep, generateSigningToken, storeToken]

/-- C6 (counterexample): `verifyToken` is not read-only — on an
expired token it deletes the store entry, mutating the store. -/
theorem C6_counterexample :
    (verifyToken "t" 10 [("t", ⟨⟨1, 1⟩, "e", 5, false⟩)]).snd
      ≠ [("t", ⟨⟨1, 1⟩, "e", 5, false⟩)] := by
  decide

/-- C6 (amended): `verifyToken` returns the associated
`(documentId, email)` pair exactly when the token is present,
unexpired and unused, and `none` otherwise; it leaves the store
unchanged except that it deletes the entry of an expired token (in
which case it returns `none`); and repeating the call on the resulting
store returns the same result. -/
theorem C6_verify_semantics (token : String) (now : Nat) (store : TokStore) :
    (∀ d e, (verifyToken token now store).fst = some (d, e) ↔
      ∃ td, mapGet token store = some td ∧ ¬ td.expiresAt < now ∧
        td.used = false ∧ td.documentId = d ∧ td.email = e) ∧
    ((verifyToken token now store).snd = store ∨
      ((verifyToken token now store).fst = none ∧
       (verifyToken token now store).snd = mapDelete token store)) ∧
    (verifyToken token now (verifyToken token now store).snd).fst
      = (verifyToken token now store).fst := by
  rcases h : mapGet token store with _ | td
  · refine ⟨fun d e => ?_, Or.inl ?_, ?_⟩
    · simp [verifyToken, h]
    · simp [verifyToken, h]
    · simp [verifyToken, h]
  · by_cases hexp : td.expiresAt < now
    · refine ⟨fun d e => ?_, Or.inr ⟨?_, ?_⟩, ?_⟩
      · simp [verifyToken, h, hexp]
      · simp [verifyToken, h, hexp]
      · simp [verifyToken, h, hexp]
      · simp [verifyToken, h, hexp, mapGet_mapDelete_self]
    · by_cases hused : td.used
      · refine ⟨fun d e => ?_, Or.inl ?_, ?_⟩
        · simp [verifyToken, h, hexp, hused]
        · simp [verifyToken, h, hexp, hused]
        · simp [verifyToken, h, hexp, hused]
      · refine ⟨fun d e => ?_, Or.inl ?_, ?_⟩
        · constructor
          · intro hv
            simp only [verifyToken, h, if_neg hexp, if_neg hused,
              Option.some.injEq, Prod.mk.injEq] at hv
            exact ⟨td, rfl, hexp, by simpa using hused, hv.1, hv.2⟩
          · rintro ⟨td2, htd2, -, -, hd, he⟩
            rw [Option.some.injEq] at htd2
            subst htd2
            simp [verifyToken, h, hexp, hused, hd, he]
        · simp [verifyToken, h, hexp, hused]
        · simp [verifyToken, h, hexp, hused]

/-- Witness for C6 (amended): on a store holding one live token, the
characterization yields the stored pair, the store is unchanged, and
re-verifying gives the same answer. -/
theorem C6_verify_semantics_witness :
    ((verifyToken "t" 3 [("t", ⟨⟨1, 1⟩, "e", 5, false⟩)]).fst = some (⟨1, 1⟩, "e") ↔
      ∃ td, mapGet "t" [("t", ⟨⟨1, 1⟩, "e", 5, false⟩)] = some td ∧
        ¬ td.expiresAt < 3 ∧ td.used = false ∧ td.documentId = ⟨1, 1⟩ ∧ td.email = "e") ∧
    ((verifyToken "t" 3 [("t", ⟨⟨1, 1⟩, "e", 5, false⟩)]).snd
        = [("t", ⟨⟨1, 1⟩, "e", 5, false⟩)] ∨
      ((verifyToken "t" 3 [("t", ⟨⟨1, 1⟩, "e", 5, false⟩)]).fst = none ∧
       (verifyToken "t" 3 [("t", ⟨⟨1, 1⟩, "e", 5, false⟩)]).snd
          = mapDelete "t" [("t", ⟨⟨1, 1⟩, "e", 5, false⟩)])) ∧
    (verifyToken "t" 3 (verifyToken "t" 3 [("t", ⟨⟨1, 1⟩, "e", 5, false⟩)]).snd).fst
      = (verifyToken "t" 3 [("t", ⟨⟨1, 1⟩, "e", 5, false⟩)]).fst :=
  ⟨(C6_verify_semantics "t" 3 [("t", ⟨⟨1, 1⟩, "e", 5, false⟩)]).1 ⟨1, 1⟩ "e",
   (C6_verify_semantics "t" 3 [("t", ⟨⟨1, 1⟩, "e", 5, false⟩)]).2.1,
   (C6_verify_semantics "t" 3 [("t", ⟨⟨1, 1⟩, "e", 5, false⟩)]).2.2⟩

/-- C8 (counterexample): after a concrete `uploadDocument` run the
document is still in `draft`, yet the token service already holds the
signer's signing token, unexpired and unused — refuting that tokens
are minted only at the draft→sent transition and that none exists
while the document is in draft. -/
theorem C8_counterexample :
    (uploadDocument (fun s => String.append "h" s) (fun l => l) ⟨1, 1⟩ 7 "t"
        [("A", "a@b.c")] [0] ["tokC8"] 0 [] []).doc.status = Status.draft ∧
    mapGet "tokC8" (uploadDocument (fun s => String.append "h" s) (fun l => l)
        ⟨1, 1⟩ 7 "t" [("A", "a@b.c")] [0] ["tokC8"] 0 [] []).store
      = some ⟨⟨1, 1⟩, "a@b.c", 604800000, false⟩ := by
  constructor
  · decide
  · decide

/-- C8 (amended): signing tokens are minted by `uploadDocument`, while
the document is still in `draft` (one per signer, keyed in the token
service); the send operation mints none — it only reads the store via
`getToken` when composing each signer's link, and returns the token
store unchanged. -/
theorem C8_tokens_minted_at_upload_not_send
    (hashStr : String → String) (byteHash : List Nat → List Nat)
    (docOid sendOid : ObjectId) (userId : Nat) (title n e baseUrl : String)
    (fileBytes : List Nat)
    (tok : String) (now : Nat) (store : TokStore) (audit : List AuditInput)
    (doc : Doc) :
    (uploadDocument hashStr byteHash docOid userId title [(n, e)] fileBytes
        [tok] now store audit).doc.status = Status.draft ∧
    (uploadDocument hashStr byteHash docOid userId title [(n, e)] fileBytes
        [tok] now store audit).store
      = mapSet tok ⟨docOid, e, now + 604800000, false⟩ store ∧
    (sendDocument baseUrl userId sendOid doc store audit).store = store := by
  refine ⟨?_, ?_, ?_⟩
  · exact (uploadTokenStep_foldl_preserves hashStr docOid now _ _).2.1
  · simp [uploadDocument, uploadTokenStep, generateSigningToken, storeToken]
  · unfold sendDocument
    split_ifs <;> rfl

/-- C1: document status only changes along
draft→sent→(signed/rejected): send requires `draft`, reject requires
`sent`, both signature-submission paths require `sent`, update and
delete require `draft`; an operation whose status precondition is
violated returns an error (HTTP 400, the repository's conflict-style
error) and leaves the document unchanged; and every operation's
resulting status is reachable from the prior status along the
machine's edges. -/
theorem C1_status_machine (doc : Doc) (store : TokStore) (audit : List AuditInput)
    (baseUrl reason se sn : String) (userId : Nat) (reqUser : Option Nat)
    (titleU : Option String) (signersU : Option (List Signer))
    (hp hd pdfOk : Bool) (sigs : List SigRec)
    (token : String) (name : Option String) (now : Nat) (docOid : ObjectId) :
    (doc.status ≠ Status.draft →
      (sendDocument baseUrl userId docOid doc store audit).result
          = Except.error ⟨"Document has already been sent or signed.", 400⟩ ∧
      (sendDocument baseUrl userId docOid doc store audit).doc = doc) ∧
    ((sendDocument baseUrl userId docOid doc store audit).result = Except.ok () →
      doc.status = Status.draft ∧
      (sendDocument baseUrl userId docOid doc store audit).doc.status = Status.sent) ∧
    (doc.status ≠ Status.sent →
      (rejectDocument reason userId doc audit).fst
          = Except.error ⟨"Document must be in sent status to reject.", 400⟩ ∧
      (rejectDocument reason userId doc audit).snd.fst = doc) ∧
    ((rejectDocument reason userId doc audit).fst = Except.ok () →
      doc.status = Status.sent ∧
      (rejectDocument reason userId doc audit).snd.fst.status = Status.rejected) ∧
    (doc.status ≠ Status.sent →
      (addSignature doc.id se sn hp hd pdfOk reqUser doc sigs audit).result
          = Except.error ⟨"Document is not ready for signing.", 400⟩ ∧
      (addSignature doc.id se sn hp hd pdfOk reqUser doc sigs audit).doc = doc) ∧
    (∀ oid email store1, verifyToken token now store = (some (oid, email), store1) →
      doc.id = oid.value → doc.status ≠ Status.sent →
      (signWithToken token name hd pdfOk now doc sigs store audit).result
          = Except.error ⟨"Document is not ready for signing.", 400⟩ ∧
      (signWithToken token name hd pdfOk now doc sigs store audit).doc = doc) ∧
    (doc.status ≠ Status.draft →
      (updateDocument titleU signersU userId doc audit).fst
          = Except.error ⟨"Cannot update document after it has been sent.", 400⟩ ∧
      (updateDocument titleU signersU userId doc audit).snd.fst = doc) ∧
    ((updateDocument titleU signersU userId doc audit).fst = Except.ok () →
      doc.status = Status.draft ∧
      (updateDocument titleU signersU userId doc audit).snd.fst.status = doc.status) ∧
    (doc.status ≠ Status.draft →
      (deleteDocument doc).fst
          = Except.error ⟨"Cannot delete document after it has been sent.", 400⟩ ∧
      (deleteDocument doc).snd = some doc) ∧
    ((deleteDocument doc).fst = Except.ok () → doc.status = Status.draft) ∧
    statusStep doc.status (sendDocument baseUrl userId docOid doc store audit).doc.status ∧
    statusStep doc.status (rejectDocument reason userId doc audit).snd.fst.status ∧
    statusStep doc.status (updateDocument titleU signersU userId doc audit).snd.fst.status ∧
    statusStep doc.status (addSignature doc.id se sn hp hd pdfOk reqUser doc sigs audit).doc.status ∧
    statusStep doc.status (signWithToken token name hd pdfOk now doc sigs store audit).doc.status := by
  refine ⟨?_, ?_, ?_, ?_, ?_, ?_, ?_, ?_, ?_, ?_, ?_, ?_, ?_, ?_, ?_⟩
  · intro h
    exact ⟨by simp [sendDocument, h], by simp [sendDocument, h]⟩
  · intro h
    by_cases hdr : doc.status = Status.draft
    · refine ⟨hdr, ?_⟩
      by_cases hne : doc.signers.isEmpty <;>
        simp [sendDocument, hdr, hne] at h ⊢
    · simp [sendDocument, hdr] at h
  · intro h
    exact ⟨by simp [rejectDocument, h], by simp [rejectDocument, h]⟩
  · intro h
    by_cases hs : doc.status = Status.sent
    · exact ⟨hs, by simp [rejectDocument, hs]⟩
    · simp [rejectDocument, hs] at h
  · intro h
    exact ⟨by simp [addSignature, h], by simp [addSignature, h]⟩
  · intro oid email store1 hver hid h
    exact ⟨by simp [signWithToken, hver, hid, h], by simp [signWithToken, hver, hid, h]⟩
  · intro h
    exact ⟨by simp [updateDocument, h], by simp [updateDocument, h]⟩
  · intro h
    by_cases hdr : doc.status = Status.draft
    · exact ⟨hdr, by simp [updateDocument, hdr]⟩
    · simp [updateDocument, hdr] at h
  · intro h
    exact ⟨by simp [deleteDocument, h], by simp [deleteDocument, h]⟩
  · intro h
    by_cases hdr : doc.status = Status.draft
    · exact hdr
    · simp [deleteDocument, hdr] at h
  · unfold sendDocument
    split_ifs with h1 h2
    · exact Or.inl rfl
    · exact Or.inl rfl
    · exact Or.inr (Or.inl ⟨not_not.mp h1, rfl⟩)
  · unfold rejectDocument
    split_ifs with h1
    · exact Or.inl rfl
    · exact Or.inr (Or.inr ⟨not_not.mp h1, Or.inr rfl⟩)
  · unfold updateDocument
    split_ifs with h1
    · exact Or.inl rfl
    · exact Or.inl rfl
  · exact statusStep_of_doc_cases
      (addSignature_doc_cases doc.id se sn hp hd pdfOk reqUser doc sigs audit)
  · exact statusStep_of_doc_cases
      (signWithToken_doc_cases token name hd pdfOk now doc sigs store audit)

/-- Witness for C1: on a concrete document already in `sent` status,
sending errors with the conflict message and leaves the document
unchanged, while rejecting succeeds and moves it to `rejected`. -/
theorem C1_status_machine_witness :
    ((sendDocument "b" 0 ⟨1, 1⟩ ⟨1, "t", Status.sent, [], [], [], none, none⟩ [] []).result
        = Except.error ⟨"Document has already been sent or signed.", 400⟩ ∧
     (sendDocument "b" 0 ⟨1, 1⟩ ⟨1, "t", Status.sent, [], [], [], none, none⟩ [] []).doc
        = ⟨1, "t", Status.sent, [], [], [], none, none⟩) ∧
    ((⟨1, "t", Status.sent, [], [], [], none, none⟩ : Doc).status = Status.sent ∧
     (rejectDocument "r" 0 ⟨1, "t", Status.sent, [], [], [], none, none⟩ []).snd.fst.status
        = Status.rejected) :=
  ⟨(C1_status_machine ⟨1, "t", Status.sent, [], [], [], none, none⟩ [] [] "b" "r" "e" "n"
      0 none none none true true true [] "tok" none 0 ⟨1, 1⟩).1 (by decide),
   (C1_status_machine ⟨1, "t", Status.sent, [], [], [], none, none⟩ [] [] "b" "r" "e" "n"
      0 none none none true true true [] "tok" none 0 ⟨1, 1⟩).2.2.2.1 (by decide)⟩

/-- C2: if the completion step's PDF assembly fails (`pdfOk = false`
on the submission that makes every signer's `signed` flag true), then
— on both submission paths — the operation surfaces the assembly
error, the persisted document keeps status `sent` with its
signed-file reference unchanged (none recorded), and the Signature
record of the submission is retained, so completion can be retried
from the same Signature set. -/
theorem C2_pdf_failure_leaves_document_sent
    (doc : Doc) (sigs : List SigRec) (audit : List AuditInput)
    (se sn : String) (u : Option Nat) (sg : Signer) (docOid : ObjectId)
    (token : String) (name : Option String) (now : Nat)
    (store store1 : TokStore)
    (hstat : doc.status = Status.sent)
    (hfind : findSigner se doc.signers = some sg)
    (hsg : sg.signed = false)
    (hpair : sigPairPresent doc.id se sigs = false)
    (hall : allSigned (markSigner se doc.signers) = true)
    (hver : verifyToken token now store = (some (docOid, se), store1))
    (hid : doc.id = docOid.value) :
    ((addSignature doc.id se sn true true false u doc sigs audit).result
        = Except.error ⟨"Error generating signed PDF", 500⟩ ∧
     (addSignature doc.id se sn true true false u doc sigs audit).doc.status = Status.sent ∧
     (addSignature doc.id se sn true true false u doc sigs audit).doc.signedFile = doc.signedFile ∧
     (addSignature doc.id se sn true true false u doc sigs audit).sigs
        = sigs ++ [⟨doc.id, se, sn⟩]) ∧
    ((signWithToken token name true false now doc sigs store audit).result
        = Except.error ⟨"Error generating signed PDF", 500⟩ ∧
     (signWithToken token name true false now doc sigs store audit).doc.status = Status.sent ∧
     (signWithToken token name true false now doc sigs store audit).doc.signedFile = doc.signedFile ∧
     (signWithToken token name true false now doc sigs store audit).sigs
        = sigs ++ [⟨doc.id, se, name.getD sg.name⟩]) := by
  have hcreate1 : signatureCreate ⟨doc.id, se, sn⟩ sigs
      = Except.ok (sigs ++ [⟨doc.id, se, sn⟩]) := by
    simp [signatureCreate, hpair]
  have hcreate2 : signatureCreate ⟨docOid.value, se, name.getD sg.name⟩ sigs
      = Except.ok (sigs ++ [⟨docOid.value, se, name.getD sg.name⟩]) := by
    rw [← hid]
    simp [signatureCreate, hpair]
  constructor
  · refine ⟨?_, ?_, ?_, ?_⟩ <;>
      simp [addSignature, hstat, hfind, hsg, hcreate1, hall]
  · refine ⟨?_, ?_, ?_, ?_⟩ <;>
      simp [signWithToken, hver, hid, hstat, hfind, hsg, hcreate2, hall]

/-- Witness for C2: a concrete two-signer document in `sent` status
where the second signer's authenticated submission completes the set
and PDF assembly fails: the result is the assembly error, the status
stays `sent`, no signed file is recorded, and the Signature record is
kept. -/
theorem C2_pdf_failure_leaves_document_sent_witness :
    (addSignature 1 "b@b.c" "B" true true false (some 7)
        ⟨1, "t", Status.sent, [⟨"A", "a@b.c", true, none⟩, ⟨"B", "b@b.c", false, none⟩],
         [0], [0], none, none⟩
        [⟨1, "a@b.c", "A"⟩] []).result
      = Except.error ⟨"Error generating signed PDF", 500⟩ ∧
    (addSignature 1 "b@b.c" "B" true true false (some 7)
        ⟨1, "t", Status.sent, [⟨"A", "a@b.c", true, none⟩, ⟨"B", "b@b.c", false, none⟩],
         [0], [0], none, none⟩
        [⟨1, "a@b.c", "A"⟩] []).doc.status = Status.sent :=
  ⟨((C2_pdf_failure_leaves_document_sent
      ⟨1, "t", Status.sent, [⟨"A", "a@b.c", true, none⟩, ⟨"B", "b@b.c", false, none⟩],
       [0], [0], none, none⟩
      [⟨1, "a@b.c", "A"⟩] [] "b@b.c" "B" (some 7) ⟨"B", "b@b.c", false, none⟩ ⟨1, 5⟩
      "tokB" none 0 [("tokB", ⟨⟨1, 5⟩, "b@b.c", 9, false⟩)]
      [("tokB", ⟨⟨1, 5⟩, "b@b.c", 9, false⟩)]
      (by decide) (by decide) (by decide) (by decide) (by decide) (by decide)
      (by decide)).1).1,
   ((C2_pdf_failure_leaves_document_sent
      ⟨1, "t", Status.sent, [⟨"A", "a@b.c", true, none⟩, ⟨"B", "b@b.c", false, none⟩],
       [0], [0], none, none⟩
      [⟨1, "a@b.c", "A"⟩] [] "b@b.c" "B" (some 7) ⟨"B", "b@b.c", false, none⟩ ⟨1, 5⟩
      "tokB" none 0 [("tokB", ⟨⟨1, 5⟩, "b@b.c", 9, false⟩)]
      [("tokB", ⟨⟨1, 5⟩, "b@b.c", 9, false⟩)]
      (by decide) (by decide) (by decide) (by decide) (by decide) (by decide)
      (by decide)).1).2.1⟩

/-- C3: on both submission paths, a submission for a signer whose
`signed` flag is already true returns the conflict error and leaves
the document, the Signature store and the token store untouched; and
independently `Signature.create`'s unique `(documentId, signerEmail)`
index rejects a duplicate pair (and admits a new pair), the last line
of defense. -/
theorem C3_double_submission_guard
    (doc : Doc) (sigs : List SigRec) (audit : List AuditInput)
    (se sn : String) (u : Option Nat) (sg : Signer) (docOid : ObjectId)
    (hp hd pdfOk : Bool) (token : String) (name : Option String) (now : Nat)
    (store store1 : TokStore) (r : SigRec)
    (hstat : doc.status = Status.sent)
    (hfind : findSigner se doc.signers = some sg)
    (hsg : sg.signed = true)
    (hver : verifyToken token now store = (some (docOid, se), store1))
    (hid : doc.id = docOid.value) :
    addSignature doc.id se sn hp hd pdfOk u doc sigs audit
      = ⟨Except.error ⟨"You have already signed this document.", 400⟩, doc, sigs, audit⟩ ∧
    signWithToken token name hd pdfOk now doc sigs store audit
      = ⟨Except.error ⟨"You have already signed this document.", 400⟩, doc, sigs, store1, audit⟩ ∧
    (sigPairPresent r.documentId r.signerEmail sigs = true →
      signatureCreate r sigs = Except.error ⟨"E11000 duplicate key error", 500⟩) ∧
    (sigPairPresent r.documentId r.signerEmail sigs = false →
      signatureCreate r sigs = Except.ok (sigs ++ [r])) := by
  refine ⟨?_, ?_, ?_, ?_⟩
  · simp [addSignature, hstat, hfind, hsg]
  · simp [signWithToken, hver, hid, hstat, hfind, hsg]
  · intro h
    simp [signatureCreate, h]
  · intro h
    simp [signatureCreate, h]

/-- Witness for C3: a signer already marked signed is rejected with
the conflict error on the authenticated path, and a duplicate
`(documentId, signerEmail)` pair is rejected by the unique index. -/
theorem C3_double_submission_guard_witness :
    addSignature 1 "a@b.c" "A" true true true (some 7)
        ⟨1, "t", Status.sent, [⟨"A", "a@b.c", true, none⟩], [0], [0], none, none⟩
        [⟨1, "a@b.c", "A"⟩] []
      = ⟨Except.error ⟨"You have already signed this document.", 400⟩,
         ⟨1, "t", Status.sent, [⟨"A", "a@b.c", true, none⟩], [0], [0], none, none⟩,
         [⟨1, "a@b.c", "A"⟩], []⟩ ∧
    signatureCreate ⟨1, "a@b.c", "A"⟩ [⟨1, "a@b.c", "A"⟩]
      = Except.error ⟨"E11000 duplicate key error", 500⟩ :=
  ⟨(C3_double_submission_guard
      ⟨1, "t", Status.sent, [⟨"A", "a@b.c", true, none⟩], [0], [0], none, none⟩
      [⟨1, "a@b.c", "A"⟩] [] "a@b.c" "A" (some 7) ⟨"A", "a@b.c", true, none⟩ ⟨1, 5⟩
      true true true "tokA" none 0 [("tokA", ⟨⟨1, 5⟩, "a@b.c", 9, false⟩)]
      [("tokA", ⟨⟨1, 5⟩, "a@b.c", 9, false⟩)] ⟨1, "a@b.c", "A"⟩
      (by decide) (by decide) (by decide) (by decide) (by decide)).1,
   (C3_double_submission_guard
      ⟨1, "t", Status.sent, [⟨"A", "a@b.c", true, none⟩], [0], [0], none, none⟩
      [⟨1, "a@b.c", "A"⟩] [] "a@b.c" "A" (some 7) ⟨"A", "a@b.c", true, none⟩ ⟨1, 5⟩
      true true true "tokA" none 0 [("tokA", ⟨⟨1, 5⟩, "a@b.c", 9, false⟩)]
      [("tokA", ⟨⟨1, 5⟩, "a@b.c", 9, false⟩)] ⟨1, "a@b.c", "A"⟩
      (by decide) (by decide) (by decide) (by decide) (by decide)).2.2.1 (by decide)⟩

/-- C7 (code bug): the reverse lookup `getToken` compares the stored
`documentId` — the ObjectId instance captured by the *upload* request —
against the *send* request's freshly fetched `document._id` using
JavaScript `===`, i.e. reference equality; across requests the
references differ even though the id values agree, so the send-time
lookup matches nothing: `getToken` returns null for every signer, and
every emailed signing link is the interpolation of `null`,
`BASE_URL + "/api/sign/null"` — it never contains the issued token. -/
theorem C7_send_time_token_lookup_finds_nothing
    (docOidSend : ObjectId) (e baseUrl : String) (store : TokStore)
    (userId : Nat) (doc : Doc) (audit : List AuditInput)
    (hrefs : ∀ p ∈ store, p.snd.documentId.ref ≠ docOidSend.ref) :
    getToken docOidSend e store = none ∧
    signingUrl baseUrl (getToken docOidSend e store)
      = baseUrl ++ "/api/sign/" ++ "null" ∧
    (doc.status = Status.draft → doc.signers.isEmpty = false →
      (sendDocument baseUrl userId docOidSend doc store audit).emails
        = doc.signers.map (fun s =>
            ⟨s.email, baseUrl ++ "/api/sign/" ++ "null"⟩)) := by
  have hgen : ∀ email : String, getToken docOidSend email store = none := by
    intro email
    unfold getToken
    rw [Option.map_eq_none', List.find?_eq_none]
    intro p hp hcon
    simp only [Bool.and_eq_true, beq_iff_eq] at hcon
    exact hrefs p hp hcon.1.1
  have hurl : signingUrl baseUrl (getToken docOidSend e store)
      = baseUrl ++ "/api/sign/" ++ "null" := by
    rw [hgen e]
    simp [signingUrl]
  refine ⟨hgen e, hurl, ?_⟩
  intro h1 h2
  have hfun : (fun s : Signer =>
        (⟨s.email, signingUrl baseUrl (getToken docOidSend s.email store)⟩ : EmailMsg))
      = (fun s : Signer => ⟨s.email, baseUrl ++ "/api/sign/" ++ "null"⟩) := by
    funext s
    rw [hgen s.email]
    simp [signingUrl]
  have hsend : (sendDocument baseUrl userId docOidSend doc store audit).emails
      = doc.signers.map (fun s =>
          ⟨s.email, signingUrl baseUrl (getToken docOidSend s.email store)⟩) := by
    simp [sendDocument, h1, h2]
  rw [hsend, hfun]

/-- Witness for C7: the upload request stored the token under ObjectId
instance `⟨1, 1⟩`; the send request queries with its own instance
`⟨1, 2⟩` of the same id value 1, finds nothing, and the dispatched
email's link ends in `null`. -/
theorem C7_send_time_token_lookup_finds_nothing_witness :
    getToken ⟨1, 2⟩ "a@b.c" [("tokA", ⟨⟨1, 1⟩, "a@b.c", 9, false⟩)] = none ∧
    (sendDocument "http://x" 7 ⟨1, 2⟩
        ⟨1, "t", Status.draft, [⟨"A", "a@b.c", false, none⟩], [], [0], none, none⟩
        [("tokA", ⟨⟨1, 1⟩, "a@b.c", 9, false⟩)] []).emails
      = [⟨"a@b.c", "http://x" ++ "/api/sign/" ++ "null"⟩] :=
  ⟨(C7_send_time_token_lookup_finds_nothing ⟨1, 2⟩ "a@b.c" "http://x"
      [("tokA", ⟨⟨1, 1⟩, "a@b.c", 9, false⟩)] 7
      ⟨1, "t", Status.draft, [⟨"A", "a@b.c", false, none⟩], [], [0], none, none⟩ []
      (by decide)).1,
   (C7_send_time_token_lookup_finds_nothing ⟨1, 2⟩ "a@b.c" "http://x"
      [("tokA", ⟨⟨1, 1⟩, "a@b.c", 9, false⟩)] 7
      ⟨1, "t", Status.draft, [⟨"A", "a@b.c", false, none⟩], [], [0], none, none⟩ []
      (by decide)).2.2 (by decide) (by decide)⟩

/-- C10: once a token-based submission has passed its validation
checks, the resulting store carries the token marked used (the
invalidation happens before the all-signed check and any PDF
assembly); that token never verifies again at any later time; if PDF
assembly then fails the document stays `sent` while the token is
already spent; and any retry of `signWithToken` with the same token
against the resulting store answers with the invalid-token error. -/
theorem C10_token_spent_before_completion
    (token : String) (name : Option String) (pdfOk : Bool) (now now2 : Nat)
    (doc : Doc) (sigs : List SigRec) (store store1 : TokStore)
    (audit : List AuditInput) (se : String) (sg : Signer) (docOid : ObjectId)
    (hver : verifyToken token now store = (some (docOid, se), store1))
    (hid : doc.id = docOid.value)
    (hstat : doc.status = Status.sent)
    (hfind : findSigner se doc.signers = some sg)
    (hsg : sg.signed = false)
    (hpair : sigPairPresent doc.id se sigs = false) :
    (signWithToken token name true pdfOk now doc sigs store audit).store
        = invalidateToken token store1 ∧
    (verifyToken token now2
        (signWithToken token name true pdfOk now doc sigs store audit).store).fst = none ∧
    (pdfOk = false → allSigned (markSigner se doc.signers) = true →
      (signWithToken token name true pdfOk now doc sigs store audit).result
          = Except.error ⟨"Error generating signed PDF", 500⟩ ∧
      (signWithToken token name true pdfOk now doc sigs store audit).doc.status
          = Status.sent) ∧
    (∀ (name2 : Option String) (hd2 pdf2 : Bool) (doc2 : Doc) (sigs2 : List SigRec)
        (audit2 : List AuditInput),
      (signWithToken token name2 hd2 pdf2 now2 doc2 sigs2
          (signWithToken token name true pdfOk now doc sigs store audit).store audit2).result
        = Except.error ⟨"Invalid or expired token.", 400⟩) := by
  have hcreate : signatureCreate ⟨docOid.value, se, name.getD sg.name⟩ sigs
      = Except.ok (sigs ++ [⟨docOid.value, se, name.getD sg.name⟩]) := by
    rw [← hid]
    simp [signatureCreate, hpair]
  have hstore : (signWithToken token name true pdfOk now doc sigs store audit).store
      = invalidateToken token store1 := by
    by_cases hall : allSigned (markSigner se doc.signers) = true <;>
      by_cases hpdf : pdfOk <;>
      simp [signWithToken, hver, hid, hstat, hfind, hsg, hcreate, hall, hpdf]
  have hnone : ∀ m : Nat, (verifyToken token m
      (signWithToken token name true pdfOk now doc sigs store audit).store).fst = none := by
    intro m
    rw [hstore]
    exact verifyToken_after_invalidate token m store1
  refine ⟨hstore, hnone now2, ?_, ?_⟩
  · intro hpdf hall
    constructor <;> simp [signWithToken, hver, hid, hstat, hfind, hsg, hcreate, hall, hpdf]
  · intro name2 hd2 pdf2 doc2 sigs2 audit2
    have hn := hnone now2
    revert hn
    generalize (signWithToken token name true pdfOk now doc sigs store audit).store = S
    intro hn
    rcases hv : verifyToken token now2 S with ⟨o, s2⟩
    rw [hv] at hn
    have ho : o = none := hn
    subst ho
    simp [signWithToken, hv]

/-- Witness for C10: a concrete single-signer token submission whose
PDF assembly fails leaves the document `sent`, with the token spent:
retrying with the same token yields the invalid-token error. -/
theorem C10_token_spent_before_completion_witness :
    (verifyToken "tokA" 0
      (signWithToken "tokA" none true false 0
        ⟨1, "t", Status.sent, [⟨"A", "a@b.c", false, none⟩], [], [0], none, none⟩
        [] [("tokA", ⟨⟨1, 5⟩, "a@b.c", 9, false⟩)] []).store).fst = none ∧
    (signWithToken "tokA" none true false 0
        ⟨1, "t", Status.sent, [⟨"A", "a@b.c", false, none⟩], [], [0], none, none⟩
        [] [("tokA", ⟨⟨1, 5⟩, "a@b.c", 9, false⟩)] []).result
      = Except.error ⟨"Error generating signed PDF", 500⟩ ∧
    (signWithToken "tokA" none true true 0
        ⟨1, "t", Status.sent, [⟨"A", "a@b.c", false, none⟩], [], [0], none, none⟩
        [] [("tokA", ⟨⟨1, 5⟩, "a@b.c", 9, false⟩)] [] ).store
      = invalidateToken "tokA" [("tokA", ⟨⟨1, 5⟩, "a@b.c", 9, false⟩)] :=
  ⟨(C10_token_spent_before_completion "tokA" none false 0 0
      ⟨1, "t", Status.sent, [⟨"A", "a@b.c", false, none⟩], [], [0], none, none⟩
      [] [("tokA", ⟨⟨1, 5⟩, "a@b.c", 9, false⟩)] [("tokA", ⟨⟨1, 5⟩, "a@b.c", 9, false⟩)] []
      "a@b.c" ⟨"A", "a@b.c", false, none⟩ ⟨1, 5⟩
      (by decide) (by decide) (by decide) (by decide) (by decide) (by decide)).2.1,
   ((C10_token_spent_before_completion "tokA" none false 0 0
      ⟨1, "t", Status.sent, [⟨"A", "a@b.c", false, none⟩], [], [0], none, none⟩
      [] [("tokA", ⟨⟨1, 5⟩, "a@b.c", 9, false⟩)] [("tokA", ⟨⟨1, 5⟩, "a@b.c", 9, false⟩)] []
      "a@b.c" ⟨"A", "a@b.c", false, none⟩ ⟨1, 5⟩
      (by decide) (by decide) (by decide) (by decide) (by decide) (by decide)).2.2.1
      rfl (by decide)).1,
   (C10_token_spent_before_completion "tokA" none true 0 0
      ⟨1, "t", Status.sent, [⟨"A", "a@b.c", false, none⟩], [], [0], none, none⟩
      [] [("tokA", ⟨⟨1, 5⟩, "a@b.c", 9, false⟩)] [("tokA", ⟨⟨1, 5⟩, "a@b.c", 9, false⟩)] []
      "a@b.c" ⟨"A", "a@b.c", false, none⟩ ⟨1, 5⟩
      (by decide) (by decide) (by decide) (by decide) (by decide) (by decide)).1⟩

/-- C9 (code bug): the audit log schema declares `userId` with
`required: true`, so the `userId: null` entry that `signWithToken`
submits for an anonymous token-based action fails validation;
`AuditLog.log` swallows the failure and stores nothing — the entry is
silently dropped rather than persisted with a null actor. -/
theorem C9_anonymous_audit_entry_dropped (docId : Nat) (logs : List AuditInput) :
    auditEntryValid ⟨none, docId, "signature_added"⟩ = false ∧
    auditLogWrite ⟨none, docId, "signature_added"⟩ logs = logs := by
  constructor
  · rfl
  · simp [auditLogWrite, auditEntryValid]

end DocSign
